import Mathlib

/-!
Verification of the PID controller in `src/src/lib.rs`.

The Rust struct `PidController` is embedded shallowly: `f32` values are
modelled as rationals (the spec speaks of unconstrained reals), `SystemTime`
timestamps as rationals, and `&mut self` methods as functions from the state
to a value paired with the updated state.  The clock reads performed inside
`get_time_difference` and `set_last_runtime` become explicit parameters
`now` and `now2` (the Rust code calls `SystemTime::now()` twice per
`update`).  `Duration::duration_since(..).unwrap()` panics when the clock
went backwards; this is modelled by `Option`, with `none` standing for the
panic.
-/

structure PidController where
  p_coefficient : ℚ
  i_coefficient : ℚ
  d_coefficient : ℚ
  last_runtime : Option ℚ
  last_iterm : ℚ
  last_error : ℚ
deriving Repr, DecidableEq

namespace PidController

/-- Rust `PidController::new`: stores the gains, leaves `last_runtime` unset
and zero-initialises the term memory. -/
def new (p i d : ℚ) : PidController :=
  { p_coefficient := p
    i_coefficient := i
    d_coefficient := d
    last_runtime := none
    last_iterm := 0
    last_error := 0 }

/-- Rust `fn error(&self, setpoint, measurement) -> f32`, returning
`setpoint - measurement` — takes `&self`, so it returns no updated state. -/
def error (_s : PidController) (setpoint measurement : ℚ) : ℚ :=
  setpoint - measurement

/-- Rust `fn p_term(&self, error) -> f32`: returns `error` unchanged. -/
def p_term (_s : PidController) (e : ℚ) : ℚ :=
  e

/-- Rust `fn i_term(&mut self, error, delta_time)`: computes
`last_iterm + error * delta_time`, stores it into `last_iterm`, and returns
`i_coefficient` times it (the gain is applied *inside* this method in the
source). -/
def i_term (s : PidController) (e delta_time : ℚ) : ℚ × PidController :=
  let i := s.last_iterm + e * delta_time
  (s.i_coefficient * i, { s with last_iterm := i })

/-- Rust `fn d_term(&mut self, error, delta_time)`: returns `0` without touching
`last_error` when `delta_time == 0`; otherwise returns
`(error - last_error) / delta_time` and stores `last_error := error`. -/
def d_term (s : PidController) (e delta_time : ℚ) : ℚ × PidController :=
  if delta_time = 0 then (0, s)
  else ((e - s.last_error) / delta_time, { s with last_error := e })

/-- Rust `fn set_last_runtime(&mut self)`: overwrites `last_runtime` with the
current clock reading (passed explicitly as `now`). -/
def set_last_runtime (s : PidController) (now : ℚ) : PidController :=
  { s with last_runtime := some now }

/-- Rust `SystemTime::duration_since`: `Ok(now - earlier)` when `earlier <= now`,
`Err` otherwise.  The source immediately `unwrap`s the result, so the error
case is a panic, modelled as `none`. -/
def duration_since (now earlier : ℚ) : Option ℚ :=
  if earlier ≤ now then some (now - earlier) else none

/-- Rust `fn get_time_difference(&mut self) -> f32`: reads the clock (`now`),
computes the duration since `last_runtime` (zero when absent, panicking via
`unwrap` when the clock went backwards), then calls `set_last_runtime`
(which performs a second clock read, `now2`) and returns the delta. -/
def get_time_difference (s : PidController) (now now2 : ℚ) :
    Option (ℚ × PidController) :=
  match s.last_runtime with
  | some last =>
      match duration_since now last with
      | some d => some (d, set_last_runtime s now2)
      | none => none
  | none => some (0, set_last_runtime s now2)

/-- Rust `pub fn update(&mut self, setpoint, measurement) -> f32`: obtains the
elapsed delta from the clock, computes the error once, and returns
`p_term(e) * p_coefficient + i_term(e, dt) * i_coefficient
 + d_term(e, dt) * d_coefficient`, threading the state through the two
mutating term methods in that order. -/
def update (s : PidController) (setpoint measurement now now2 : ℚ) :
    Option (ℚ × PidController) :=
  match s.get_time_difference now now2 with
  | none => none
  | some (dt, s1) =>
      let e := s1.error setpoint measurement
      let p := s1.p_term e
      let iv := (s1.i_term e dt).1
      let s2 := (s1.i_term e dt).2
      let dv := (s2.d_term e dt).1
      let s3 := (s2.d_term e dt).2
      some (p * s1.p_coefficient + iv * s1.i_coefficient
              + dv * s1.d_coefficient, s3)

/-- Write-count instrumentation for `i_term`: the method body executes
`self.last_iterm = i` exactly once, unconditionally. -/
def i_term_iterm_writes (_s : PidController) (_e _delta_time : ℚ) : Nat :=
  1

/-- Write-count instrumentation for `d_term`: the early return on
`delta_time == 0` skips the single `self.last_error = error` assignment;
the other branch executes it once. -/
def d_term_error_writes (_s : PidController) (_e delta_time : ℚ) : Nat :=
  if delta_time = 0 then 0 else 1

/-- Write counts of a whole `update` invocation for the fields
`last_iterm` and `last_error`: `update` performs one `i_term` call and one
`d_term` call, so the counts are those of the two instrumented methods at
the delta the clock produced (`none` when the clock read panics). -/
def update_writes (s : PidController) (setpoint measurement now now2 : ℚ) :
    Option (Nat × Nat) :=
  match s.get_time_difference now now2 with
  | none => none
  | some (dt, s1) =>
      let e := s1.error setpoint measurement
      let s2 := (s1.i_term e dt).2
      some (s1.i_term_iterm_writes e dt, s2.d_term_error_writes e dt)

/-- Iterated `i_term` state: `n` successive calls with a fixed error `e` and
fixed `delta_time` `t`, starting from `s`. -/
def iter_i_term (s : PidController) (e t : ℚ) : Nat → PidController
  | 0 => s
  | n + 1 => ((iter_i_term s e t n).i_term e t).2

end PidController

namespace PidController

/-! Helper lemmas shared by the claim theorems. -/

lemma i_term_runtime (s : PidController) (e t : ℚ) :
    (s.i_term e t).2.last_runtime = s.last_runtime := rfl

lemma d_term_runtime (s : PidController) (e t : ℚ) :
    (s.d_term e t).2.last_runtime = s.last_runtime := by
  unfold d_term
  split <;> rfl

lemma get_time_difference_runtime (s : PidController) (now now2 dt : ℚ)
    (s1 : PidController) (hg : s.get_time_difference now now2 = some (dt, s1)) :
    s1.last_runtime = some now2 := by
  unfold get_time_difference at hg
  split at hg
  · split at hg
    · simp only [Option.some.injEq, Prod.mk.injEq] at hg
      rw [← hg.2]
      rfl
    · exact absurd hg (by simp)
  · simp only [Option.some.injEq, Prod.mk.injEq] at hg
    rw [← hg.2]
    rfl

lemma update_runtime (s : PidController) (sp m now now2 v : ℚ)
    (s' : PidController) (h : s.update sp m now now2 = some (v, s')) :
    s'.last_runtime = some now2 := by
  unfold update at h
  split at h
  · exact absurd h (by simp)
  · rename_i dt s1 heq
    simp only [Option.some.injEq, Prod.mk.injEq] at h
    rw [← h.2, d_term_runtime, i_term_runtime]
    exact get_time_difference_runtime s now now2 dt s1 heq

lemma iter_i_term_last_iterm (s : PidController) (e t : ℚ) (n : Nat) :
    (s.iter_i_term e t n).last_iterm = s.last_iterm + e * t * n := by
  induction n with
  | zero => simp [iter_i_term]
  | succ k ih =>
      simp only [iter_i_term, i_term, ih]
      push_cast
      ring

end PidController

/-- C9: `error` returns `setpoint − measurement`, its result does not depend
on the controller state (and, by its type, it neither updates the state nor
fails); consequently `error x x = 0` for every `x`. -/
theorem error_pure_spec (s s2 : PidController) (setpoint measurement x : ℚ) :
    s.error setpoint measurement = setpoint - measurement ∧
    s.error setpoint measurement = s2.error setpoint measurement ∧
    s.error x x = 0 := by
  refine ⟨rfl, rfl, ?_⟩
  simp [PidController.error]

/-- C2: for every state and error, `d_term` with `delta_time = 0` returns `0`
and leaves the whole state (in particular `last_error`) unchanged; two
back-to-back calls with `delta_time = 0` both return `0`. -/
theorem d_term_zero_delta_no_mutation (s : PidController) (e e2 : ℚ) :
    s.d_term e 0 = (0, s) ∧ ((s.d_term e 0).2.d_term e2 0) = (0, s) := by
  constructor <;> simp [PidController.d_term]

/-- C5: for every state and nonzero `delta_time` `t`, `d_term` returns
`(error − last_error) / t` and stores `last_error := error`; hence for an
error sequence `e1` then `e2` over delta `t`, the second call returns
`(e2 − e1) / t`. -/
theorem d_term_nonzero_delta (s : PidController) (e e1 e2 t : ℚ) (ht : t ≠ 0) :
    s.d_term e t = ((e - s.last_error) / t, { s with last_error := e }) ∧
    ((s.d_term e1 t).2.d_term e2 t).1 = (e2 - e1) / t := by
  constructor <;> simp [PidController.d_term, ht]

/-- Witness for C5 at a concrete state and inputs. -/
theorem d_term_nonzero_delta_witness :
    (PidController.new 1 1 1).d_term 4 2
        = ((4 - (PidController.new 1 1 1).last_error) / 2,
           { PidController.new 1 1 1 with last_error := 4 }) ∧
    (((PidController.new 1 1 1).d_term 3 2).2.d_term 5 2).1 = (5 - 3) / 2 :=
  d_term_nonzero_delta (PidController.new 1 1 1) 4 3 5 2 (by norm_num)

/-- C10: the arithmetic core is deterministic once the elapsed delta is
fixed: from equal states with equal arguments, `error`, `p_term`, `i_term`
and `d_term` return equal values and equal final states.  (None of the four
operations takes a clock reading as input, so the clock read in
`get_time_difference` is the only nondeterministic entry point.) -/
theorem arithmetic_core_deterministic (s1 s2 : PidController)
    (sp1 sp2 m1 m2 e1 e2 t1 t2 : ℚ)
    (hs : s1 = s2) (hsp : sp1 = sp2) (hm : m1 = m2) (he : e1 = e2)
    (ht : t1 = t2) :
    s1.error sp1 m1 = s2.error sp2 m2 ∧
    s1.p_term e1 = s2.p_term e2 ∧
    s1.i_term e1 t1 = s2.i_term e2 t2 ∧
    s1.d_term e1 t1 = s2.d_term e2 t2 := by
  subst hs hsp hm he ht
  exact ⟨rfl, rfl, rfl, rfl⟩

/-- Witness for C10 at a concrete state and inputs. -/
theorem arithmetic_core_deterministic_witness :
    (PidController.new 1 2 3).error 5 1 = (PidController.new 1 2 3).error 5 1 ∧
    (PidController.new 1 2 3).p_term 4 = (PidController.new 1 2 3).p_term 4 ∧
    (PidController.new 1 2 3).i_term 4 2 = (PidController.new 1 2 3).i_term 4 2 ∧
    (PidController.new 1 2 3).d_term 4 2 = (PidController.new 1 2 3).d_term 4 2 :=
  arithmetic_core_deterministic (PidController.new 1 2 3)
    (PidController.new 1 2 3) 5 5 1 1 4 4 2 2 rfl rfl rfl rfl rfl

/-- C3: on the very first `update` of a freshly constructed controller the
elapsed delta is exactly `0`, so the integral and derivative contributions
vanish: with P gain `0` the first `update` returns `0` for any setpoint and
measurement (and any I, D gains), while the P-only configuration with gain
`1` returns the raw error immediately; in every case the call succeeds. -/
theorem first_update_fresh_controller (p i d sp m now now2 : ℚ) :
    ((PidController.new p i d).get_time_difference now now2
        = some (0, (PidController.new p i d).set_last_runtime now2)) ∧
    ((PidController.new 0 i d).update sp m now now2
        = some (0, (PidController.new 0 i d).set_last_runtime now2)) ∧
    ((PidController.new p 0 0).update sp m now now2
        = some ((sp - m) * p, (PidController.new p 0 0).set_last_runtime now2)) ∧
    ((PidController.new 1 0 0).update sp m now now2
        = some (sp - m, (PidController.new 1 0 0).set_last_runtime now2)) := by
  refine ⟨rfl, ?_, ?_, ?_⟩ <;>
    simp [PidController.update, PidController.get_time_difference,
      PidController.set_last_runtime, PidController.error, PidController.p_term,
      PidController.i_term, PidController.d_term, PidController.new]

/-- C6: when the stored last sample time is later than the clock's current
reading (clock went backwards), `get_time_difference` — and hence `update` —
aborts (the `unwrap` on `duration_since` panics, modelled by `none`): no
delta is produced, so the fault is not masked by an absolute value or a
clamp to zero. -/
theorem clock_backwards_is_fatal (s : PidController) (last now now2 sp m : ℚ)
    (hlast : s.last_runtime = some last) (hlt : now < last) :
    s.get_time_difference now now2 = none ∧
    s.update sp m now now2 = none := by
  have hg : s.get_time_difference now now2 = none := by
    unfold PidController.get_time_difference
    rw [hlast]
    simp [PidController.duration_since, not_le.mpr hlt]
  refine ⟨hg, ?_⟩
  unfold PidController.update
  rw [hg]

/-- Witness for C6: a controller whose last sample time is `5` queried at
clock reading `3`. -/
theorem clock_backwards_is_fatal_witness :
    { PidController.new 1 1 1 with
        last_runtime := some 5 }.get_time_difference 3 3 = none ∧
    { PidController.new 1 1 1 with
        last_runtime := some 5 }.update 2 1 3 3 = none :=
  clock_backwards_is_fatal { PidController.new 1 1 1 with last_runtime := some 5 }
    5 3 3 2 1 rfl (by norm_num)

/-- C8: the controller is a two-state machine on `last_runtime`: a fresh
controller has none (`Uninitialized`); every successful `update` leaves it
set (`Running`, holding the clock reading taken by `set_last_runtime`), so
after the first `update` it is present on every call thereafter; and no
operation clears it — `i_term` and `d_term` leave it untouched while
`set_last_runtime` always stores a value. -/
theorem uninitialized_to_running_one_way (p i d sp m now now2 e t v : ℚ)
    (s s' : PidController) (h : s.update sp m now now2 = some (v, s')) :
    (PidController.new p i d).last_runtime = none ∧
    s'.last_runtime = some now2 ∧
    (s.i_term e t).2.last_runtime = s.last_runtime ∧
    (s.d_term e t).2.last_runtime = s.last_runtime ∧
    (s.set_last_runtime now).last_runtime = some now :=
  ⟨rfl, PidController.update_runtime s sp m now now2 v s' h,
    PidController.i_term_runtime s e t, PidController.d_term_runtime s e t, rfl⟩

/-- Witness for C8: a fresh controller's first `update` succeeds and the
resulting state is `Running`. -/
theorem uninitialized_to_running_one_way_witness :
    (PidController.new 1 1 1).last_runtime = none ∧
    ((PidController.new 1 1 1).set_last_runtime 6).last_runtime = some 6 ∧
    ((PidController.new 1 1 1).i_term 2 3).2.last_runtime
        = (PidController.new 1 1 1).last_runtime := by
  have h : (PidController.new 1 1 1).update 2 1 6 7
      = some (1, (PidController.new 1 1 1).set_last_runtime 7) := by
    simp [PidController.update, PidController.get_time_difference,
      PidController.set_last_runtime, PidController.error, PidController.p_term,
      PidController.i_term, PidController.d_term, PidController.new]
    norm_num
  have hmain := uninitialized_to_running_one_way 1 1 1 2 1 6 7 2 3 1
    (PidController.new 1 1 1) ((PidController.new 1 1 1).set_last_runtime 7) h
  exact ⟨hmain.1, hmain.2.2.2.2, hmain.2.2.1⟩

/-- C7 counterexample: the claim says `last_error` is mutated on every
`update` call regardless of the elapsed delta, but the first `update` of a
fresh controller runs with delta `0`, where `d_term` returns early: the
write count for `last_error` in that invocation is `0`, not `1`, and
`last_error` remains `0` even though the error of the call is `5`. -/
theorem update_mutates_last_error_cex :
    (PidController.new 1 1 1).update_writes 5 0 3 3 = some (1, 0) ∧
    (PidController.new 1 1 1).update 5 0 3 3
        = some (5, (PidController.new 1 1 1).set_last_runtime 3) ∧
    ((PidController.new 1 1 1).set_last_runtime 3).last_error = 0 ∧
    (PidController.new 1 1 1).error 5 0 = 5 ∧
    (0 : Nat) ≠ 1 := by
  refine ⟨by decide, ?_, by decide, by norm_num [PidController.error], by decide⟩
  simp [PidController.update, PidController.get_time_difference,
    PidController.set_last_runtime, PidController.error, PidController.p_term,
    PidController.i_term, PidController.d_term, PidController.new]

/-- C7 amended: every successful `update` invocation writes `last_iterm`
exactly once (inside its single `i_term` call); it writes `last_error`
exactly once when the elapsed delta is nonzero and zero times when the delta
is zero (so not on the first call of a fresh controller). -/
theorem update_write_counts (s : PidController) (sp m now now2 dt : ℚ)
    (s1 : PidController)
    (hg : s.get_time_difference now now2 = some (dt, s1)) :
    s.update_writes sp m now now2 = some (1, if dt = 0 then 0 else 1) := by
  unfold PidController.update_writes
  rw [hg]
  simp [PidController.i_term_iterm_writes, PidController.d_term_error_writes]

/-- Witness for C7's amended theorem: a fresh controller's first `update`
has delta `0`, so the write counts are one for `last_iterm` and zero for
`last_error`. -/
theorem update_write_counts_witness :
    (PidController.new 1 1 1).update_writes 5 0 3 3
        = some (1, if (0 : ℚ) = 0 then 0 else 1) :=
  update_write_counts (PidController.new 1 1 1) 5 0 3 3 0
    ((PidController.new 1 1 1).set_last_runtime 3) rfl

/-- C1: the code violates this claim.  In `src/src/lib.rs`, `i_term`
multiplies the accumulated sum by `i_coefficient` before returning it, and
`update` multiplies that return value by `i_coefficient` again, so the
integral contribution to the correction equals `i_coefficient * i_coefficient`
times the raw accumulated sum — at gains `(0, 2, 0)` with an elapsed delta of
`1` and error `1` the returned correction is `4`, while one application of
the gain to the raw sum `1` would give `2`. -/
theorem i_gain_applied_twice_in_code :
    (∀ (s : PidController) (e dt : ℚ),
        (s.i_term e dt).1 * s.i_coefficient
          = s.i_coefficient * s.i_coefficient * (s.i_term e dt).2.last_iterm) ∧
    ({ PidController.new 0 2 0 with last_runtime := some 0 }.update 1 0 1 1
        = some (4, { p_coefficient := 0, i_coefficient := 2, d_coefficient := 0,
                     last_runtime := some 1, last_iterm := 1,
                     last_error := 1 })) ∧
    (2 : ℚ) * 1 ≠ 4 := by
  refine ⟨?_, ?_, by norm_num⟩
  · intro s e dt
    simp only [PidController.i_term]
    ring
  · simp [PidController.update, PidController.get_time_difference,
      PidController.duration_since, PidController.set_last_runtime,
      PidController.error, PidController.p_term, PidController.i_term,
      PidController.d_term, PidController.new]
    norm_num

/-- C4: rectangular (Euler) integral accumulation: from a zero accumulator,
`n` successive `i_term` calls with fixed error `e` and fixed delta `t` leave
the raw (pre-gain) accumulator `last_iterm` equal to `e * t * n`; for
nonzero `e` and positive delta `t` (deltas are durations, hence
nonnegative), the accumulator is strictly monotone in the sign of `e` and
unbounded in that direction. -/
theorem integral_accumulation_euler (s : PidController) (e t M : ℚ) (n : Nat)
    (h0 : s.last_iterm = 0) (he : e ≠ 0) (ht : 0 < t) :
    (s.iter_i_term e t n).last_iterm = e * t * n ∧
    (0 < e → StrictMono fun k : Nat => (s.iter_i_term e t k).last_iterm) ∧
    (e < 0 → StrictAnti fun k : Nat => (s.iter_i_term e t k).last_iterm) ∧
    (0 < e → ∃ k : Nat, M < (s.iter_i_term e t k).last_iterm) ∧
    (e < 0 → ∃ k : Nat, (s.iter_i_term e t k).last_iterm < M) := by
  have key : ∀ k : Nat, (s.iter_i_term e t k).last_iterm = e * t * k := by
    intro k
    rw [PidController.iter_i_term_last_iterm, h0, zero_add]
  refine ⟨key n, ?_, ?_, ?_, ?_⟩
  · intro hepos
    apply strictMono_nat_of_lt_succ
    intro k
    simp only [key]
    push_cast
    nlinarith
  · intro heneg
    apply strictAnti_nat_of_succ_lt
    intro k
    simp only [key]
    push_cast
    nlinarith
  · intro hepos
    obtain ⟨k, hk⟩ := exists_nat_gt (M / (e * t))
    refine ⟨k, ?_⟩
    rw [key]
    have het : 0 < e * t := mul_pos hepos ht
    have h2 : M < (k : ℚ) * (e * t) := (div_lt_iff₀ het).mp hk
    nlinarith
  · intro heneg
    obtain ⟨k, hk⟩ := exists_nat_gt (-M / (-e * t))
    refine ⟨k, ?_⟩
    rw [key]
    have het : 0 < -e * t := mul_pos (neg_pos.mpr heneg) ht
    have h2 : -M < (k : ℚ) * (-e * t) := (div_lt_iff₀ het).mp hk
    nlinarith

/-- Witness for C4 at error `2`, delta `1`, three iterations, bound `5`. -/
theorem integral_accumulation_euler_witness :
    ((PidController.new 0 1 0).iter_i_term 2 1 3).last_iterm
        = 2 * 1 * ((3 : Nat) : ℚ) ∧
    (0 < (2 : ℚ) → StrictMono fun k : Nat =>
        ((PidController.new 0 1 0).iter_i_term 2 1 k).last_iterm) ∧
    ((2 : ℚ) < 0 → StrictAnti fun k : Nat =>
        ((PidController.new 0 1 0).iter_i_term 2 1 k).last_iterm) ∧
    (0 < (2 : ℚ) → ∃ k : Nat,
        5 < ((PidController.new 0 1 0).iter_i_term 2 1 k).last_iterm) ∧
    ((2 : ℚ) < 0 → ∃ k : Nat,
        ((PidController.new 0 1 0).iter_i_term 2 1 k).last_iterm < 5) :=
  integral_accumulation_euler (PidController.new 0 1 0) 2 1 5 3 rfl
    (by norm_num) (by norm_num)
